import Mathlib

/-!
Verification of the persistence facade in `src/server/dblib.py`.

The development shallowly embeds the parts of `dblib.py` that the checked
properties are about:

* the pure query-builder helpers (`_get_fields_str`, `_get_where_str`,
  `_get_groups_str`, `_get_orders_str`, the pagination clause of
  `select_page`);
* the entity codec (`_adapt` / `_convert`) over the five persisted entity
  kinds;
* the command queue and worker loop (`_queue`, `_rows`, `_execute`) as an
  explicit state machine in which caller enqueues and worker iterations are
  the atomic actions;
* the singleton connection bootstrap (`Connection.__new__`).

Python strings are modelled by `String`; Python slices such as `s[:-4]` are
character-based, so they are embedded as operations on the character data of
the string.  Machine-level numerics of the store are modelled by `Int`
(timestamps are epoch seconds, which embeds the documented second-precision
round-trip of the `datetime` conversions).  Fallible code returns `Except`.

The domain model module `model.py` (classes `CoS`, `Request`, `Attempt`,
`Response`, `Path`) is part of the repository but is not under `src/`; the
entity structures below are therefore modelled from the spec, as noted in
their doc comments.  Likewise `definitions.sql` (the DDL, which decides
whether a dangling foreign key is rejected) is not under `src/`, so the
miniature storage engine used for concrete executions is modelled from the
spec's invariant that a Request must reference an existing CoS.
-/

namespace DBLib

/-- Python character-based slice `s[:-n]` (drop the last `n` characters),
modelled on the character data of the string. -/
def pyDropRight (s : String) (n : Nat) : String :=
  String.mk (s.data.take (s.data.length - n))

/-- Python character-based slice `s[1:-1]` (drop first and last character). -/
def pySlice1m1 (s : String) : String :=
  String.mk ((s.data.drop 1).take (s.data.length - 2))

/-- Python character-based slice `s[0:n]`. -/
def pyTake (s : String) (n : Nat) : String :=
  String.mk (s.data.take n)

/-- A value bound into a query filter (Python passes ints or strings). -/
inductive DBVal where
  | int (n : Int)
  | str (s : String)
deriving DecidableEq, Repr

/-- Python `str(val)` for filter values: `_get_where_str` stringifies each
bound value with `str` before appending it to the parameter tuple. -/
def pyValStr : DBVal → String
  | DBVal.int n => toString n
  | DBVal.str s => s

/-- Embedding of `_get_fields_str` (dblib.py lines 499-505): start from the
wildcard, append `field + ","` for each field, and if anything was appended
strip the leading `*` and the trailing comma with the slice `[1:-1]`. -/
def get_fields_str (fields : List String) : String :=
  let fields_str := fields.foldl (fun acc f => acc ++ f ++ ",") "*"
  if fields_str ≠ "*" then pySlice1m1 fields_str else fields_str

/-- Embedding of `_get_where_str` (dblib.py lines 508-517).  The kwargs
mapping is a list of `(column, operator, value)` entries in mapping
iteration order (Python dicts iterate in insertion order).  Each entry
contributes `key + cond + "? and "` to the clause and `str(val)` to the
value tuple; a nonempty clause is prefixed with `" where "` after the
trailing `"and "` is removed by the slice `[:-4]`. -/
def get_where_str (kwargs : List (String × String × DBVal)) : String × List String :=
  let acc := kwargs.foldl
    (fun acc e => (acc.1 ++ e.1 ++ e.2.1 ++ "? and ", acc.2 ++ [pyValStr e.2.2]))
    ( "", [])
  if acc.1 ≠ "" then ( " where " ++ pyDropRight acc.1 4, acc.2) else acc

/-- Embedding of `_get_groups_str` (dblib.py lines 520-526): `None` and the
empty tuple are both falsy in `if groups:`, producing the empty string; a
nonempty tuple produces `" group by g1,g2,"` whose trailing comma the slice
`[:-1]` removes. -/
def get_groups_str (groups : Option (List String)) : String :=
  let groups_str :=
    match groups with
    | none => ""
    | some gs =>
        if gs.isEmpty then ""
        else gs.foldl (fun acc g => acc ++ g ++ ",") " group by "
  pyDropRight groups_str 1

/-- Embedding of `_get_orders_str` (dblib.py lines 529-535), identical in
shape to `_get_groups_str` with the keyword `order by`. -/
def get_orders_str (orders : Option (List String)) : String :=
  let orders_str :=
    match orders with
    | none => ""
    | some os =>
        if os.isEmpty then ""
        else os.foldl (fun acc o => acc ++ o ++ ",") " order by "
  pyDropRight orders_str 1

/-- The `AND`-join of clause fragments, written as the spec describes it
(used only to state the characterisation of `get_where_str`). -/
def joinAnd : List String → String
  | [] => ""
  | [x] => x
  | x :: y :: rest => x ++ " and " ++ joinAnd (y :: rest)

/-- The WHERE text the spec describes: empty filters produce no clause at
all, nonempty filters produce `column operator placeholder` fragments joined
by `and`.  The text depends only on the column names and operators, never on
the bound values.  (The embedding of the code leaves one trailing space
after the last placeholder, reproduced here.) -/
def where_clause_spec (kc : List (String × String)) : String :=
  if kc.isEmpty then ""
  else " where " ++ joinAnd (kc.map (fun e => e.1 ++ e.2 ++ "?")) ++ " "

/-- Clause body accumulated by the `_get_where_str` loop (proof helper). -/
def whereBody : List (String × String × DBVal) → String
  | [] => ""
  | e :: rest => e.1 ++ e.2.1 ++ "? and " ++ whereBody rest

/-- Value tuple accumulated by the `_get_where_str` loop (proof helper). -/
def whereVals : List (String × String × DBVal) → List String
  | [] => []
  | e :: rest => pyValStr e.2.2 :: whereVals rest

/-! ## Entity codec: the five persisted entity kinds and `_adapt` / `_convert`

The entity classes live in `model.py`, which the repository imports but
which is not under `src/`; the structures below are modelled from the spec
(section 3 of spec.md).  Numeric fields are `Int`; timestamps are epoch
seconds as `Int` (the `datetime.fromtimestamp` / `datetime.timestamp` pair
round-trips an epoch value, which is the spec's second-precision guarantee);
optional values are `Option`.  Serialized structured fields (hop sequences
and the per-hop metric lists, written with Python `str` and read back with
`eval`) are represented by the sequence of integers the text denotes, since
`eval` inverts `str` on such lists and no code inspects the characters. -/

/-- Modelled from the spec: `model.py` is not under `src/`.  A class-of-
service profile: an id, a name, and ten optional numeric thresholds whose
getters return the unset marker (serialized as null) when no requirement is
set. -/
structure CoS where
  id : Int
  name : String
  max_response_time : Option Int
  min_concurrent_users : Option Int
  min_requests_per_second : Option Int
  min_bandwidth : Option Int
  max_delay : Option Int
  max_jitter : Option Int
  max_loss_rate : Option Int
  min_cpu : Option Int
  min_ram : Option Int
  min_disk : Option Int
deriving DecidableEq, Repr

/-- Modelled from the spec: one evaluated network route for a response,
keyed by `req_id + src + attempt_no + host`, with an optional hop sequence,
optional parallel per-hop metric sequences, a weighting scheme and weight,
and a timestamp. -/
structure Path where
  req_id : Int
  src : String
  attempt_no : Int
  host : String
  path : Option (List Int)
  algorithm : String
  algo_time : Int
  bandwidths : Option (List Int)
  delays : Option (List Int)
  jitters : Option (List Int)
  loss_rates : Option (List Int)
  weight_type : String
  weight : Int
  timestamp : Int
deriving DecidableEq, Repr

/-- Modelled from the spec: a host's reply to one attempt.  The `paths`
field holds whatever collection the constructor is given; `_convert` passes
a singleton list wrapping the freshly selected Path rows, so the field's
type is a list of lists of paths. -/
structure Response where
  req_id : Int
  src : String
  attempt_no : Int
  host : String
  algorithm : String
  algo_time : Int
  cpu : Int
  ram : Int
  disk : Int
  timestamp : Int
  paths : List (List Path)
deriving DecidableEq, Repr

/-- Modelled from the spec: one retry of delivering a request, with four
timestamps (only the first mandatory) and its per-host responses as a
mapping keyed by responding host. -/
structure Attempt where
  req_id : Int
  src : String
  attempt_no : Int
  host : String
  path : Option (List Int)
  state : Int
  hreq_at : Int
  hres_at : Option Int
  rres_at : Option Int
  dres_at : Option Int
  responses : List (String × Response)
deriving DecidableEq, Repr

/-- Modelled from the spec: a request referencing one CoS, owning its
attempts as a mapping keyed by attempt number. -/
structure Request where
  id : Int
  src : String
  cos : CoS
  data : String
  result : String
  host : String
  path : Option (List Int)
  state : Int
  hreq_at : Int
  dres_at : Option Int
  attempts : List (Int × Attempt)
deriving DecidableEq, Repr

/-- One of the five persisted entity kinds (the class argument `cls`). -/
inductive Kind where
  | cos
  | request
  | attempt
  | response
  | path
deriving DecidableEq, Repr

/-- A value held in one column of a row tuple: the SQL null, an integer, a
plain string, the textual serialization of an integer sequence (represented
by the sequence it denotes), or a `datetime` (represented by its epoch
seconds). -/
inductive Cell where
  | null
  | int (n : Int)
  | str (s : String)
  | text (l : List Int)
  | dt (epoch : Int)
deriving DecidableEq, Repr

/-- An entity of any of the five kinds. -/
inductive Entity where
  | cos (c : CoS)
  | request (r : Request)
  | attempt (a : Attempt)
  | response (r : Response)
  | path (p : Path)
deriving DecidableEq, Repr

/-- The kind of an entity (Python dispatches on `obj.__class__.__name__`). -/
def Entity.kind : Entity → Kind
  | Entity.cos _ => Kind.cos
  | Entity.request _ => Kind.request
  | Entity.attempt _ => Kind.attempt
  | Entity.response _ => Kind.response
  | Entity.path _ => Kind.path

/-- The `_tables` mapping from class name to table name. -/
def tableName : Kind → String
  | Kind.cos => "cos"
  | Kind.request => "requests"
  | Kind.attempt => "attempts"
  | Kind.response => "responses"
  | Kind.path => "paths"

/-- Embedding of `_get_columns` (dblib.py lines 472-496). -/
def get_columns : Kind → List String
  | Kind.cos =>
      [ "id", "name", "max_response_time", "min_concurrent_users",
        "min_requests_per_second", "min_bandwidth", "max_delay",
        "max_jitter", "max_loss_rate", "min_cpu", "min_ram", "min_disk"]
  | Kind.request =>
      [ "id", "src", "cos_id", "data", "result", "host", "path",
        "state", "hreq_at", "dres_at"]
  | Kind.attempt =>
      [ "req_id", "src", "attempt_no", "host", "path", "state",
        "hreq_at", "hres_at", "rres_at", "dres_at"]
  | Kind.response =>
      [ "req_id", "src", "attempt_no", "host", "algorithm",
        "algo_time", "cpu", "ram", "disk", "timestamp"]
  | Kind.path =>
      [ "req_id", "src", "attempt_no", "host", "path", "algorithm",
        "algo_time", "bandwidths", "delays", "jitters", "loss_rates",
        "weight_type", "weight", "timestamp"]

/-- The `path = None; if obj.path: path = str(obj.path)` idiom of `_adapt`:
Python truthiness makes both `None` and the empty list fall through to
null; a nonempty list is serialized with `str`. -/
def optListCell : Option (List Int) → Cell
  | none => Cell.null
  | some l => if l.isEmpty then Cell.null else Cell.text l

/-- The `x = None; if obj.x: x = datetime.fromtimestamp(obj.x)` idiom of
`_adapt` for the nullable timestamps: `None` and the epoch value `0` are
both falsy and fall through to null. -/
def optTimeCell : Option Int → Cell
  | none => Cell.null
  | some t => if t == 0 then Cell.null else Cell.dt t

/-- An unset CoS threshold serializes to null, a set one to its number. -/
def optIntCell : Option Int → Cell
  | none => Cell.null
  | some n => Cell.int n

/-- Embedding of `_adapt` (dblib.py lines 324-391): encode an entity as the
fixed-order tuple of column values for its kind. -/
def adapt : Entity → List Cell
  | Entity.cos c =>
      [ Cell.int c.id, Cell.str c.name, optIntCell c.max_response_time,
        optIntCell c.min_concurrent_users,
        optIntCell c.min_requests_per_second, optIntCell c.min_bandwidth,
        optIntCell c.max_delay, optIntCell c.max_jitter,
        optIntCell c.max_loss_rate, optIntCell c.min_cpu,
        optIntCell c.min_ram, optIntCell c.min_disk]
  | Entity.request r =>
      [ Cell.int r.id, Cell.str r.src, Cell.int r.cos.id, Cell.str r.data,
        Cell.str r.result, Cell.str r.host, optListCell r.path,
        Cell.int r.state, Cell.dt r.hreq_at, optTimeCell r.dres_at]
  | Entity.attempt a =>
      [ Cell.int a.req_id, Cell.str a.src, Cell.int a.attempt_no,
        Cell.str a.host, optListCell a.path, Cell.int a.state,
        Cell.dt a.hreq_at, optTimeCell a.hres_at, optTimeCell a.rres_at,
        optTimeCell a.dres_at]
  | Entity.response r =>
      [ Cell.int r.req_id, Cell.str r.src, Cell.int r.attempt_no,
        Cell.str r.host, Cell.str r.algorithm, Cell.int r.algo_time,
        Cell.int r.cpu, Cell.int r.ram, Cell.int r.disk,
        Cell.dt r.timestamp]
  | Entity.path p =>
      [ Cell.int p.req_id, Cell.str p.src, Cell.int p.attempt_no,
        Cell.str p.host, optListCell p.path, Cell.str p.algorithm,
        Cell.int p.algo_time, optListCell p.bandwidths,
        optListCell p.delays, optListCell p.jitters,
        optListCell p.loss_rates, Cell.str p.weight_type,
        Cell.int p.weight, Cell.dt p.timestamp]

/-- Read an integer column (dynamic typing: anything else is a type slip). -/
def cellInt : Cell → Except String Int
  | Cell.int n => Except.ok n
  | _ => Except.error "TypeError: expected an integer column"

/-- Read a string column. -/
def cellStr : Cell → Except String String
  | Cell.str s => Except.ok s
  | _ => Except.error "TypeError: expected a text column"

/-- The unconditional `datetime.timestamp(item)` of `_convert`: requires a
datetime value and yields its epoch seconds. -/
def cellTime : Cell → Except String Int
  | Cell.dt t => Except.ok t
  | _ => Except.error "TypeError: timestamp expects a datetime"

/-- The `x = None; if item: x = datetime.timestamp(item)` idiom of
`_convert`.  Falsy cells (null, integer 0, empty string) leave the field
unset; a datetime converts; any other truthy value makes
`datetime.timestamp` raise. -/
def cellOptTime : Cell → Except String (Option Int)
  | Cell.null => Except.ok none
  | Cell.dt t => Except.ok (some t)
  | Cell.int n =>
      if n == 0 then Except.ok none
      else Except.error "TypeError: timestamp expects a datetime"
  | Cell.str s =>
      if s.isEmpty then Except.ok none
      else Except.error "TypeError: timestamp expects a datetime"
  | Cell.text _ => Except.error "TypeError: timestamp expects a datetime"

/-- The `if item != None: setter(item)` idiom of `_convert` for optional
numeric thresholds. -/
def cellOptInt : Cell → Except String (Option Int)
  | Cell.null => Except.ok none
  | Cell.int n => Except.ok (some n)
  | _ => Except.error "TypeError: expected a numeric column"

/-- Python `eval(item)` on a column holding a serialized integer sequence.
On the textual serialization of a list it returns the list; on `None` it
raises (`eval` requires a string), which is the failure mode of `_convert`
for rows whose optional serialized columns are null. -/
def pyEval : Cell → Except String (List Int)
  | Cell.text l => Except.ok l
  | Cell.null => Except.error "TypeError: eval arg 1 must be a string"
  | _ => Except.error "TypeError: eval arg 1 must be a string"

/-- Python dict assignment `d[k] = v`: replace in place if the key exists,
otherwise append at the end (insertion order is preserved). -/
def dictInsert {κ β : Type} [BEq κ] (d : List (κ × β)) (k : κ) (v : β) :
    List (κ × β) :=
  if d.any (fun p => p.1 == k) then
    d.map (fun p => if p.1 == k then (k, v) else p)
  else d ++ [(k, v)]

/-- A Python dict comprehension over a fetched row list, keyed by `key`. -/
def pyDictBy {κ β : Type} [BEq κ] (key : β → κ) (xs : List β) :
    List (κ × β) :=
  xs.foldl (fun d x => dictInsert d (key x) x) []

/-- The rows returned by the recursive sub-selects that `_convert` issues
through the queue (the select filtered by the parent's composite key).
`_convert` is embedded relative to this environment; the failure modes of
the sub-selects themselves are outside the round-trip property. -/
structure ConvertEnv where
  cosById : Int → List CoS
  attemptsByReq : Int → String → List Attempt
  responsesByAtt : Int → String → Int → List Response
  pathsByResp : Int → String → Int → String → List Path

/-- The `CoS` branch of `_convert` (dblib.py lines 398-419): construct from
id and name, then apply each setter guarded by `!= None`. -/
def convert_CoS_item (item : List Cell) : Except String CoS :=
  match item with
  | [c0, c1, c2, c3, c4, c5, c6, c7, c8, c9, c10, c11] => do
      let id ← cellInt c0
      let name ← cellStr c1
      let v2 ← cellOptInt c2
      let v3 ← cellOptInt c3
      let v4 ← cellOptInt c4
      let v5 ← cellOptInt c5
      let v6 ← cellOptInt c6
      let v7 ← cellOptInt c7
      let v8 ← cellOptInt c8
      let v9 ← cellOptInt c9
      let v10 ← cellOptInt c10
      let v11 ← cellOptInt c11
      Except.ok
        { id := id, name := name, max_response_time := v2,
          min_concurrent_users := v3, min_requests_per_second := v4,
          min_bandwidth := v5, max_delay := v6, max_jitter := v7,
          max_loss_rate := v8, min_cpu := v9, min_ram := v10,
          min_disk := v11 }
  | _ => Except.error "IndexError: list index out of range"

/-- The `Request` branch of `_convert` (dblib.py lines 421-431): convert
the timestamps, fetch the referenced CoS by `item[2]` and take its first
row, `eval` the serialized path, and fetch the owned attempts into a dict
keyed by attempt number. -/
def convert_Request_item (env : ConvertEnv) (item : List Cell) :
    Except String Request :=
  match item with
  | [c0, c1, c2, c3, c4, c5, c6, c7, c8, c9] => do
      let hreq_at ← cellTime c8
      let dres_at ← cellOptTime c9
      let id ← cellInt c0
      let src ← cellStr c1
      let cos_id ← cellInt c2
      let cos ←
        match env.cosById cos_id with
        | c :: _ => Except.ok c
        | [] => Except.error "IndexError: list index out of range"
      let data ← cellStr c3
      let result ← cellStr c4
      let host ← cellStr c5
      let path ← pyEval c6
      let state ← cellInt c7
      Except.ok
        { id := id, src := src, cos := cos, data := data, result := result,
          host := host, path := some path, state := state,
          hreq_at := hreq_at, dres_at := dres_at,
          attempts := pyDictBy (fun a => a.attempt_no)
            (env.attemptsByReq id src) }
  | _ => Except.error "IndexError: list index out of range"

/-- The `Attempt` branch of `_convert` (dblib.py lines 433-450). -/
def convert_Attempt_item (env : ConvertEnv) (item : List Cell) :
    Except String Attempt :=
  match item with
  | [c0, c1, c2, c3, c4, c5, c6, c7, c8, c9] => do
      let hreq_at ← cellTime c6
      let hres_at ← cellOptTime c7
      let rres_at ← cellOptTime c8
      let dres_at ← cellOptTime c9
      let req_id ← cellInt c0
      let src ← cellStr c1
      let attempt_no ← cellInt c2
      let host ← cellStr c3
      let path ← pyEval c4
      let state ← cellInt c5
      Except.ok
        { req_id := req_id, src := src, attempt_no := attempt_no,
          host := host, path := some path, state := state,
          hreq_at := hreq_at, hres_at := hres_at, rres_at := rres_at,
          dres_at := dres_at,
          responses := pyDictBy (fun r => r.host)
            (env.responsesByAtt req_id src attempt_no) }
  | _ => Except.error "IndexError: list index out of range"

/-- The `Response` branch of `_convert` (dblib.py lines 452-458).  Note the
constructor receives `[select(Path, ...)]`: the fetched path rows wrapped
in one extra singleton list. -/
def convert_Response_item (env : ConvertEnv) (item : List Cell) :
    Except String Response :=
  match item with
  | [c0, c1, c2, c3, c4, c5, c6, c7, c8, c9] => do
      let timestamp ← cellTime c9
      let req_id ← cellInt c0
      let src ← cellStr c1
      let attempt_no ← cellInt c2
      let host ← cellStr c3
      let algorithm ← cellStr c4
      let algo_time ← cellInt c5
      let cpu ← cellInt c6
      let ram ← cellInt c7
      let disk ← cellInt c8
      Except.ok
        { req_id := req_id, src := src, attempt_no := attempt_no,
          host := host, algorithm := algorithm, algo_time := algo_time,
          cpu := cpu, ram := ram, disk := disk, timestamp := timestamp,
          paths := [env.pathsByResp req_id src attempt_no host] }
  | _ => Except.error "IndexError: list index out of range"

/-- The `Path` branch of `_convert` (dblib.py lines 460-465): the hop
sequence and the four metric sequences are all read back with `eval`. -/
def convert_Path_item (item : List Cell) : Except String Path :=
  match item with
  | [c0, c1, c2, c3, c4, c5, c6, c7, c8, c9, c10, c11, c12, c13] => do
      let timestamp ← cellTime c13
      let req_id ← cellInt c0
      let src ← cellStr c1
      let attempt_no ← cellInt c2
      let host ← cellStr c3
      let path ← pyEval c4
      let algorithm ← cellStr c5
      let algo_time ← cellInt c6
      let bandwidths ← pyEval c7
      let delays ← pyEval c8
      let jitters ← pyEval c9
      let loss_rates ← pyEval c10
      let weight_type ← cellStr c11
      let weight ← cellInt c12
      Except.ok
        { req_id := req_id, src := src, attempt_no := attempt_no,
          host := host, path := some path, algorithm := algorithm,
          algo_time := algo_time, bandwidths := some bandwidths,
          delays := some delays, jitters := some jitters,
          loss_rates := some loss_rates, weight_type := weight_type,
          weight := weight, timestamp := timestamp }
  | _ => Except.error "IndexError: list index out of range"

/-- One iteration of the `_convert` loop, dispatching on the class. -/
def convert_item (env : ConvertEnv) (k : Kind) (item : List Cell) :
    Except String Entity :=
  match k with
  | Kind.cos => (convert_CoS_item item).map Entity.cos
  | Kind.request => (convert_Request_item env item).map Entity.request
  | Kind.attempt => (convert_Attempt_item env item).map Entity.attempt
  | Kind.response => (convert_Response_item env item).map Entity.response
  | Kind.path => (convert_Path_item item).map Entity.path

/-- Embedding of `_convert` (dblib.py lines 395-468): decode each row of
the iterable in order; an exception raised for any row propagates out of
the loop. -/
def convert (env : ConvertEnv) (k : Kind) :
    List (List Cell) → Except String (List Entity)
  | [] => Except.ok []
  | item :: rest => do
      let e ← convert_item env k item
      let es ← convert env k rest
      Except.ok (e :: es)

/-! ## Command queue and worker loop

`_queue` is a FIFO `queue.Queue` drained by the single thread running
`_execute`; `_rows` is the module-level dict of select results keyed by the
per-operation `Event`; an `Event` is identified here by a natural number
and "set" is membership in the state's list of set events.  The system is
embedded as a state machine whose atomic actions are a caller enqueuing an
operation and the worker performing one iteration of its loop.  The store
behind the shared connection is a type parameter `DB` together with an
execution function that either fails (the `except` branch of `_execute`)
or returns the updated store and the fetched rows. -/

/-- One queued operation: the SQL text, the bound parameters, and the
caller's completion signal. -/
structure Op where
  sql : String
  params : List Cell
  event : Nat
deriving DecidableEq, Repr

/-- The worker's `sql[0:6] == 'select'` test. -/
def isSelect (sql : String) : Bool := pyTake sql 6 == "select"

/-- The full state of the queue/worker system.  `submitted` records every
operation ever enqueued in submission order and `trace` every operation the
worker has handed to the connection in execution order (both are history
variables used only to state ordering properties); `events` is the set of
completion signals that have been set; `errors` is the log of caught
worker-side failures; `committed` is the last committed store snapshot. -/
structure WorkerState (DB : Type) where
  queue : List Op
  submitted : List Op
  trace : List Op
  rows : List (Nat × List (List Cell))
  events : List Nat
  errors : List String
  db : DB
  committed : DB
  commits : Nat
deriving Repr

/-- The initial state over a given store. -/
def initWS {DB : Type} (db : DB) : WorkerState DB :=
  { queue := [], submitted := [], trace := [], rows := [], events := [],
    errors := [], db := db, committed := db, commits := 0 }

/-- One iteration of the worker loop `_execute` (dblib.py lines 302-317):
pop the head operation and execute it.  On success, a select's rows are
stored in `_rows` keyed by the event, the event is set, and a commit is
issued exactly when the operation is not a select and the queue is observed
empty.  On failure, the exception is caught and logged and the loop
continues — and nothing else happens: in particular `event.set()` is not
reached, so the event stays unset. -/
def execOne {DB : Type}
    (exec : String → List Cell → DB → Except String (DB × List (List Cell)))
    (s : WorkerState DB) : WorkerState DB :=
  match s.queue with
  | [] => s
  | op :: rest =>
      match exec op.sql op.params s.db with
      | Except.error e =>
          { s with
            queue := rest,
            trace := s.trace ++ [op],
            errors := s.errors ++ [e] }
      | Except.ok (db2, rs) =>
          let rows2 :=
            if isSelect op.sql then dictInsert s.rows op.event rs else s.rows
          let doCommit := !isSelect op.sql && rest.isEmpty
          { s with
            queue := rest,
            trace := s.trace ++ [op],
            rows := rows2,
            events := s.events ++ [op.event],
            db := db2,
            committed := if doCommit then db2 else s.committed,
            commits := s.commits + (if doCommit then 1 else 0) }

/-- An atomic action of the system: a caller thread enqueuing an operation
(`_queue.put`) or the worker performing one loop iteration. -/
inductive WAction where
  | enqueue (op : Op)
  | work
deriving Repr

/-- Apply one action. -/
def wstep {DB : Type}
    (exec : String → List Cell → DB → Except String (DB × List (List Cell))) :
    WAction → WorkerState DB → WorkerState DB
  | WAction.enqueue op, s =>
      { s with
        queue := s.queue ++ [op],
        submitted := s.submitted ++ [op] }
  | WAction.work, s => execOne exec s

/-- Run a sequence of actions (an arbitrary interleaving of caller
enqueues and worker iterations). -/
def wrun {DB : Type}
    (exec : String → List Cell → DB → Except String (DB × List (List Cell)))
    (acts : List WAction) (s : WorkerState DB) : WorkerState DB :=
  acts.foldl (fun t a => wstep exec a t) s

/-- The single quote character, used by Python `str` on tuples of column
names. -/
def sq : String := String.mk [Char.ofNat 39]

/-- Python `str` of a tuple of strings, as used for the column tuple in
`insert` (a one-element tuple prints with a trailing comma). -/
def pyTupleStr (xs : List String) : String :=
  match xs with
  | [x] => "(" ++ sq ++ x ++ sq ++ ",)"
  | _ => "(" ++ String.intercalate ", " (xs.map (fun x => sq ++ x ++ sq)) ++ ")"

/-- The placeholder tuple `(?,...,?)` built by the loop in `insert`
(dblib.py lines 80-85). -/
def valsPlaceholders (n : Nat) : String :=
  ((List.range n).foldl
    (fun acc i => acc ++ "?" ++ (if i < n - 1 then "," else "")) "(") ++ ")"

/-- The operation `insert(obj)` enqueues (dblib.py lines 70-97): the INSERT
statement over the object's columns, the adapted row as parameters, and a
fresh completion signal.  After enqueueing, the caller blocks on
`event.wait()` and, once it returns, `insert` returns `True`; the
`except` branch that returns `False` can only be reached by a failure
raised in the caller thread itself before or while enqueuing. -/
def insert_op (obj : Entity) (eventId : Nat) : Op :=
  { sql := "insert into " ++ tableName obj.kind ++ " "
      ++ pyTupleStr (get_columns obj.kind) ++ " values "
      ++ valsPlaceholders (get_columns obj.kind).length,
    params := adapt obj,
    event := eventId }

/-- The value the caller of `insert` observes: `none` while its completion
signal is unset (the caller is still blocked in `event.wait()`), and
`some true` once the signal is set (the statement after the wait is
`return True` unconditionally). -/
def insertResult (setEvents : List Nat) (eventId : Nat) : Option Bool :=
  if eventId ∈ setEvents then some true else none

/-- A miniature storage engine for concrete executions of the worker.
Modelled from the spec: `definitions.sql` (the DDL) is code of this
repository that is not under `src/`; per the spec's invariant that every
Request references exactly one existing CoS and its statement that
inserting a Request with a dangling `cos_id` is rejected, the engine
refuses such an insert with a foreign-key error, and it rejects malformed
statements.  Selects return no rows; other well-formed statements succeed
without touching the miniature store. -/
structure MiniDB where
  cosIds : List Int
  requestRows : List (List Cell)
deriving DecidableEq, Repr

/-- Execution of one statement against the miniature store. -/
def miniExec (sql : String) (params : List Cell) (db : MiniDB) :
    Except String (MiniDB × List (List Cell)) :=
  if isSelect sql then Except.ok (db, [])
  else if pyTake sql 20 == "insert into requests" then
    match params.getD 2 Cell.null with
    | Cell.int cid =>
        if db.cosIds.contains cid then
          Except.ok ({ db with requestRows := db.requestRows ++ [params] }, [])
        else Except.error "IntegrityError: FOREIGN KEY constraint failed"
    | _ => Except.error "InterfaceError: bad cos_id parameter"
  else if pyTake sql 11 == "insert into" then Except.ok (db, [])
  else if pyTake sql 6 == "update" then Except.ok (db, [])
  else Except.error "OperationalError: syntax error"

/-! ## Pagination semantics of `select_page`

`select_page` (dblib.py lines 184-229) runs, for page `p` and size `s`,

  `select * from T <filters> and oid not in
     (select oid from T <order> limit (p-1)*s) <order> limit s`.

The embedding fixes the caller's ordering (which by hypothesis carries a
unique tiebreaker, hence determines the row sequence uniquely) and
represents the table as the list of its rows in that order.  A row carries
its `oid` and one data column for filters to look at.  Under SQLite
semantics the subquery yields the oids of the first `(p-1)*s` rows of the
whole table in the ordering — the caller's filters are not repeated inside
the subquery — and the outer query filters, orders and truncates. -/

/-- A table row for the pagination model: the rowid and one data column. -/
structure Row4 where
  oid : Nat
  col : Nat
deriving DecidableEq, Repr

/-- The unpaged `select` with filter `pred` over the table (rows listed in
the caller's order). -/
def select_rows (table : List Row4) (pred : Row4 → Bool) : List Row4 :=
  table.filter pred

/-- The rows returned by `select_page` for page `p` (1-based) and page size
`s`: rows satisfying the caller's filters and whose oid is not among the
first `(p-1)*s` oids of the (unfiltered) table, truncated to `s` rows. -/
def select_page_rows (table : List Row4) (pred : Row4 → Bool)
    (p s : Nat) : List Row4 :=
  (table.filter (fun r =>
      pred r && !decide (r.oid ∈ (table.take ((p - 1) * s)).map Row4.oid))).take s

/-- The ordered concatenation of pages `1..K`. -/
def pagesConcat (table : List Row4) (pred : Row4 → Bool) (s : Nat) :
    Nat → List Row4
  | 0 => []
  | K + 1 => pagesConcat table pred s K ++ select_page_rows table pred (K + 1) s

/-! ## Singleton connection bootstrap

`Connection.__new__` (dblib.py lines 271-299) stores the opened connection
as a class attribute: the first acquisition connects, applies the DDL
script and attempts the best-effort CoS seed load (whose failure is logged
and ignored), the row factory is installed, and every later acquisition
finds the attribute and returns the stored object.  `ConnEnv` is the class
attribute plus a counter of how many real connections were ever opened;
`seedOk` abstracts whether the seed file loads. -/

/-- A connection object: its identity and what bootstrap applied to it. -/
structure ConnObj where
  connId : Nat
  ddlApplied : Bool
  seedLoaded : Bool
  rowFactorySet : Bool
deriving DecidableEq, Repr

/-- The class attribute holding the singleton plus the count of opened
connections. -/
structure ConnEnv where
  stored : Option ConnObj
  opens : Nat
deriving DecidableEq, Repr

/-- The environment before any acquisition. -/
def connFresh : ConnEnv := { stored := none, opens := 0 }

/-- One acquisition `Connection()`. -/
def Connection_new (seedOk : Bool) (s : ConnEnv) : ConnObj × ConnEnv :=
  match s.stored with
  | some c => (c, s)
  | none =>
      let c : ConnObj :=
        { connId := s.opens, ddlApplied := true, seedLoaded := seedOk,
          rowFactorySet := true }
      (c, { stored := some c, opens := s.opens + 1 })

/-- `n + 1` successive acquisitions, returning the last result. -/
def acquireN (seedOk : Bool) : Nat → ConnEnv → ConnObj × ConnEnv
  | 0, s => Connection_new seedOk s
  | n + 1, s => acquireN seedOk n (Connection_new seedOk s).2

/-! ## Concrete instances used by witnesses and counterexamples -/

/-- A concrete CoS profile (one threshold set, the rest unset). -/
def cos0 : CoS :=
  { id := 1, name := "gold", max_response_time := some 100,
    min_concurrent_users := none, min_requests_per_second := none,
    min_bandwidth := none, max_delay := none, max_jitter := none,
    max_loss_rate := none, min_cpu := none, min_ram := none,
    min_disk := none }

/-- A CoS id absent from the miniature store. -/
def cos2 : CoS :=
  { id := 2, name := "silver", max_response_time := none,
    min_concurrent_users := none, min_requests_per_second := none,
    min_bandwidth := none, max_delay := none, max_jitter := none,
    max_loss_rate := none, min_cpu := none, min_ram := none,
    min_disk := none }

/-- A sub-select environment: the CoS fetch returns `cos0`, the child
fetches return no rows. -/
def env0 : ConvertEnv :=
  { cosById := fun _ => [cos0],
    attemptsByReq := fun _ _ => [],
    responsesByAtt := fun _ _ _ => [],
    pathsByResp := fun _ _ _ _ => [] }

/-- A concrete request with a nonempty path (round-trips). -/
def req0 : Request :=
  { id := 1, src := "10.0.0.1", cos := cos0, data := "payload",
    result := "res", host := "10.0.0.2", path := some [1, 2], state := 3,
    hreq_at := 100, dres_at := none, attempts := [] }

/-- A concrete request whose optional path is unset (`None`): `_adapt`
writes null into the path column and `_convert` then applies `eval` to
`None`. -/
def reqNoPath : Request :=
  { id := 1, src := "10.0.0.1", cos := cos0, data := "payload",
    result := "res", host := "10.0.0.2", path := none, state := 3,
    hreq_at := 100, dres_at := none, attempts := [] }

/-- A concrete request referencing the CoS id `2`, which the miniature
store does not contain. -/
def reqBad : Request :=
  { id := 7, src := "10.0.0.1", cos := cos2, data := "payload",
    result := "res", host := "10.0.0.2", path := some [1], state := 0,
    hreq_at := 100, dres_at := none, attempts := [] }

/-- A concrete attempt with a nonempty path (round-trips). -/
def att0 : Attempt :=
  { req_id := 1, src := "10.0.0.1", attempt_no := 1, host := "10.0.0.2",
    path := some [2, 3], state := 2, hreq_at := 100, hres_at := none,
    rres_at := some 105, dres_at := none, responses := [] }

/-- A concrete response whose `paths` field is the singleton wrapping of
the (empty) fetched path-row list. -/
def resp0 : Response :=
  { req_id := 1, src := "10.0.0.1", attempt_no := 1, host := "10.0.0.2",
    algorithm := "dijkstra", algo_time := 5, cpu := 2, ram := 4, disk := 8,
    timestamp := 111, paths := [[]] }

/-- A concrete path with every optional sequence nonempty (round-trips). -/
def path0 : Path :=
  { req_id := 1, src := "10.0.0.1", attempt_no := 1, host := "10.0.0.2",
    path := some [1, 2], algorithm := "dijkstra", algo_time := 5,
    bandwidths := some [10], delays := some [1], jitters := some [2],
    loss_rates := some [3], weight_type := "hops", weight := 7,
    timestamp := 115 }

/-- The miniature store holding exactly the CoS id `1` and no requests. -/
def db0 : MiniDB := { cosIds := [1], requestRows := [] }

/-- A malformed statement the store rejects (worker-side failure). -/
def opBogus : Op := { sql := "bogus", params := [], event := 7 }

/-- A concrete select operation. -/
def opSel : Op := { sql := "select * from cos ", params := [], event := 3 }

/-- A concrete write operation the miniature store accepts. -/
def opIns : Op := { sql := "insert into cos (id) values (?)",
                    params := [Cell.int 9], event := 4 }

/-- The state after the caller has enqueued the malformed statement. -/
def sBogus : WorkerState MiniDB :=
  wstep miniExec (WAction.enqueue opBogus) (initWS db0)

/-- The state after the caller has enqueued the select. -/
def sSel : WorkerState MiniDB :=
  wstep miniExec (WAction.enqueue opSel) (initWS db0)

/-- The state after the caller has enqueued the write. -/
def sIns : WorkerState MiniDB :=
  wstep miniExec (WAction.enqueue opIns) (initWS db0)

/-- The final state of the `insert(reqBad)` scenario: the caller enqueues
the INSERT for a request whose `cos_id` is dangling, then the worker runs
one iteration. -/
def s3 : WorkerState MiniDB :=
  wrun miniExec
    [WAction.enqueue (insert_op (Entity.request reqBad) 0), WAction.work]
    (initWS db0)

/-- A two-row table, ordered by its unique `oid`. -/
def tblCex : List Row4 := [{ oid := 1, col := 5 }, { oid := 2, col := 7 }]

/-- A caller filter matched only by the second row of `tblCex`. -/
def predCex : Row4 → Bool := fun r => r.col == 7

/-- A three-row table, ordered by its unique `oid`. -/
def table3 : List Row4 :=
  [{ oid := 1, col := 0 }, { oid := 2, col := 0 }, { oid := 3, col := 0 }]

/-- The state after the select `opSel` has been enqueued and executed: its
result row set is stored in `_rows` under the event `3`. -/
def sSelDone : WorkerState MiniDB :=
  wrun miniExec [WAction.enqueue opSel, WAction.work] (initWS db0)

/-! ## Theorems -/

/-- C9.  For field lists, group lists, and order lists with zero elements,
the query-builder helpers produce no clause (the empty string, or the
wildcard for fields) rather than malformed SQL fragments. -/
theorem empty_lists_no_clause :
    get_fields_str [] = "*"
    ∧ get_groups_str none = ""
    ∧ get_groups_str (some []) = ""
    ∧ get_orders_str none = ""
    ∧ get_orders_str (some []) = "" :=
  ⟨rfl, rfl, rfl, rfl, rfl⟩

/-- Helper for C8: an acquisition that finds a stored connection returns it
and leaves the environment unchanged. -/
theorem Connection_new_stored (seedOk : Bool) (s : ConnEnv) (c : ConnObj)
    (h : s.stored = some c) : Connection_new seedOk s = (c, s) := by
  unfold Connection_new
  rw [h]

/-- Helper for C8: any number of further acquisitions from an environment
holding a stored connection return that connection and change nothing. -/
theorem acquireN_stored (seedOk : Bool) (n : Nat) (s : ConnEnv) (c : ConnObj)
    (h : s.stored = some c) : acquireN seedOk n s = (c, s) := by
  induction n generalizing s with
  | zero => exact Connection_new_stored seedOk s c h
  | succ n ih =>
      unfold acquireN
      rw [Connection_new_stored seedOk s c h]
      exact ih s h

/-- C8.  Acquiring the storage connection is idempotent: starting from the
fresh environment, the first acquisition opens exactly one connection and
applies the DDL (with the best-effort seed load recorded by `seedOk`), and
the `n`-th acquisition, for every `n`, returns the very same connection
object with the open count still at one. -/
theorem connection_singleton_idempotent (seedOk : Bool) (n : Nat) :
    (Connection_new seedOk connFresh).1.ddlApplied = true
    ∧ (Connection_new seedOk connFresh).1.seedLoaded = seedOk
    ∧ (Connection_new seedOk connFresh).2.opens = 1
    ∧ (acquireN seedOk n connFresh).1 = (Connection_new seedOk connFresh).1
    ∧ (acquireN seedOk n connFresh).2.opens = 1 := by
  have key : ∀ m, acquireN seedOk m connFresh = Connection_new seedOk connFresh := by
    intro m
    cases m with
    | zero => rfl
    | succ m =>
        simp only [acquireN]
        exact acquireN_stored seedOk m (Connection_new seedOk connFresh).2
          (Connection_new seedOk connFresh).1 rfl
  refine ⟨rfl, rfl, rfl, ?_, ?_⟩
  · rw [key n]
  · rw [key n]
    rfl

/-- C7.  In a worker iteration whose execution succeeds, a commit is issued
if and only if the executed operation is a write (its SQL does not begin
with `select`) and the queue is observed empty immediately after execution;
a select never commits. -/
theorem commit_iff_write_and_drained {DB : Type}
    (exec : String → List Cell → DB → Except String (DB × List (List Cell)))
    (s : WorkerState DB) (op : Op) (rest : List Op) (db2 : DB)
    (rs : List (List Cell))
    (hq : s.queue = op :: rest)
    (hx : exec op.sql op.params s.db = Except.ok (db2, rs)) :
    ((execOne exec s).commits = s.commits + 1
      ↔ (isSelect op.sql = false ∧ rest = []))
    ∧ (isSelect op.sql = true → (execOne exec s).commits = s.commits) := by
  have hred : execOne exec s =
      { s with
        queue := rest,
        trace := s.trace ++ [op],
        rows := if isSelect op.sql then dictInsert s.rows op.event rs
                else s.rows,
        events := s.events ++ [op.event],
        db := db2,
        committed := if (!isSelect op.sql && rest.isEmpty) = true then db2
                     else s.committed,
        commits := s.commits
          + (if (!isSelect op.sql && rest.isEmpty) = true then 1 else 0) } := by
    unfold execOne
    rw [hq]
    dsimp only
    rw [hx]
  rw [hred]
  constructor
  · cases hsel : isSelect op.sql with
    | true => simp [hsel]
    | false =>
        cases rest with
        | nil => simp
        | cons o t => simp
  · intro hsel
    simp [hsel]

/-- C1.  When the execution of the dequeued operation raises, the worker
catches the exception and logs it and the loop moves on to the rest of the
queue — but the operation's completion signal is never set: the set of set
events is unchanged, so the caller blocked in `event.wait()` stays blocked
forever instead of being unblocked with a failure indication. -/
theorem worker_failure_never_sets_event {DB : Type}
    (exec : String → List Cell → DB → Except String (DB × List (List Cell)))
    (s : WorkerState DB) (op : Op) (rest : List Op) (msg : String)
    (hq : s.queue = op :: rest)
    (hx : exec op.sql op.params s.db = Except.error msg) :
    (execOne exec s).events = s.events
    ∧ (execOne exec s).errors = s.errors ++ [msg]
    ∧ (execOne exec s).queue = rest
    ∧ (execOne exec s).rows = s.rows
    ∧ (execOne exec s).db = s.db := by
  have hred : execOne exec s =
      { s with
        queue := rest,
        trace := s.trace ++ [op],
        errors := s.errors ++ [msg] } := by
    unfold execOne
    rw [hq]
    dsimp only
    rw [hx]
  rw [hred]
  exact ⟨rfl, rfl, rfl, rfl, rfl⟩

/-- Witness for C1: the concrete malformed statement `opBogus` is rejected
by the miniature store; running one worker iteration on it logs the error
and consumes the queue entry, yet sets no event, so the enqueueing caller
is still waiting. -/
theorem worker_failure_never_sets_event_witness :
    sBogus.queue = [opBogus]
    ∧ miniExec opBogus.sql opBogus.params sBogus.db
        = Except.error "OperationalError: syntax error"
    ∧ (execOne miniExec sBogus).events = sBogus.events
    ∧ (execOne miniExec sBogus).errors
        = sBogus.errors ++ [ "OperationalError: syntax error"]
    ∧ (execOne miniExec sBogus).queue = []
    ∧ insertResult (execOne miniExec sBogus).events opBogus.event = none :=
  ⟨rfl, rfl,
    (worker_failure_never_sets_event miniExec sBogus opBogus []
      "OperationalError: syntax error" rfl rfl).1,
    (worker_failure_never_sets_event miniExec sBogus opBogus []
      "OperationalError: syntax error" rfl rfl).2.1,
    (worker_failure_never_sets_event miniExec sBogus opBogus []
      "OperationalError: syntax error" rfl rfl).2.2.1,
    rfl⟩

/-- C3.  Inserting a Request whose `cos_id` references no existing CoS row:
the storage layer rejects the INSERT and no partial row becomes visible,
but the worker's catch never sets the completion signal, so the caller is
still blocked inside `event.wait()` (`insertResult ... = none`) and never
reaches the `return True` after the wait — and `insert` can never return
`False` for a worker-side failure, because its own `except` branch is
reachable only from the caller side.  The claimed `insert(obj) = False` is
therefore not what the code does: the call never returns. -/
theorem insert_missing_cos_blocks_caller :
    insertResult s3.events 0 = none
    ∧ s3.db = db0
    ∧ s3.db.requestRows = []
    ∧ s3.errors = [ "IntegrityError: FOREIGN KEY constraint failed"]
    ∧ s3.queue = [] :=
  ⟨rfl, rfl, rfl, rfl, rfl⟩

/-- Witness for C7: the concrete write `opIns`, executed with the queue
otherwise empty, is committed (commit count goes from 0 to 1). -/
theorem commit_iff_write_and_drained_witness :
    sIns.queue = [opIns]
    ∧ miniExec opIns.sql opIns.params sIns.db = Except.ok (db0, [])
    ∧ isSelect opIns.sql = false
    ∧ ((execOne miniExec sIns).commits = sIns.commits + 1
        ↔ (isSelect opIns.sql = false ∧ ([] : List Op) = []))
    ∧ (execOne miniExec sIns).commits = 1 :=
  ⟨rfl, rfl, rfl,
    (commit_iff_write_and_drained miniExec sIns opIns [] db0 [] rfl rfl).1,
    rfl⟩

/-- Helper for C6: one action preserves the queue invariant that the
execution trace followed by the pending queue is exactly the submission
history. -/
theorem wstep_trace_queue {DB : Type}
    (exec : String → List Cell → DB → Except String (DB × List (List Cell)))
    (a : WAction) (s : WorkerState DB)
    (h : s.trace ++ s.queue = s.submitted) :
    (wstep exec a s).trace ++ (wstep exec a s).queue
      = (wstep exec a s).submitted := by
  cases a with
  | enqueue op =>
      simp only [wstep]
      rw [← List.append_assoc, h]
  | work =>
      simp only [wstep]
      unfold execOne
      cases hq : s.queue with
      | nil => exact h
      | cons op rest =>
          dsimp only
          cases hx : exec op.sql op.params s.db with
          | error e =>
              dsimp only
              rw [List.append_assoc, List.singleton_append, ← hq]
              exact h
          | ok pr =>
              obtain ⟨db2, rs⟩ := pr
              dsimp only
              rw [List.append_assoc, List.singleton_append, ← hq]
              exact h

/-- Helper for C6: the invariant is preserved by any action sequence. -/
theorem wrun_trace_queue {DB : Type}
    (exec : String → List Cell → DB → Except String (DB × List (List Cell)))
    (acts : List WAction) (s : WorkerState DB)
    (h : s.trace ++ s.queue = s.submitted) :
    (wrun exec acts s).trace ++ (wrun exec acts s).queue
      = (wrun exec acts s).submitted := by
  induction acts generalizing s with
  | nil => exact h
  | cons a rest ih => exact ih (wstep exec a s) (wstep_trace_queue exec a s h)

/-- C6.  FIFO execution: from any state in which the trace-plus-queue
invariant holds (in particular the initial state, where all three histories
are empty), any interleaving of caller enqueues and worker iterations
preserves `trace ++ queue = submitted`; each action hands at most one
operation to the shared connection; and whenever the queue has drained the
operations executed at the storage layer are exactly the submitted
operations in submission order. -/
theorem queue_fifo_execution {DB : Type}
    (exec : String → List Cell → DB → Except String (DB × List (List Cell))) :
    (∀ (acts : List WAction) (s : WorkerState DB),
        s.trace ++ s.queue = s.submitted →
        (wrun exec acts s).trace ++ (wrun exec acts s).queue
          = (wrun exec acts s).submitted)
    ∧ (∀ (a : WAction) (s : WorkerState DB),
        (wstep exec a s).trace.length ≤ s.trace.length + 1)
    ∧ (∀ (acts : List WAction) (s : WorkerState DB),
        s.trace ++ s.queue = s.submitted →
        (wrun exec acts s).queue = [] →
        (wrun exec acts s).trace = (wrun exec acts s).submitted) := by
  refine ⟨wrun_trace_queue exec, ?_, ?_⟩
  · intro a s
    cases a with
    | enqueue op =>
        simp only [wstep]
        exact Nat.le_succ _
    | work =>
        simp only [wstep]
        unfold execOne
        cases hq : s.queue with
        | nil => exact Nat.le_succ _
        | cons op rest =>
            dsimp only
            cases hx : exec op.sql op.params s.db with
            | error e => simp
            | ok pr =>
                obtain ⟨db2, rs⟩ := pr
                simp
  · intro acts s h hempty
    have h2 := wrun_trace_queue exec acts s h
    rw [hempty, List.append_nil] at h2
    exact h2

/-- Witness for C6: one caller enqueues the select, the worker drains it;
the trace equals the submission history. -/
theorem queue_fifo_execution_witness :
    (initWS db0).trace ++ (initWS db0).queue = (initWS db0).submitted
    ∧ sSelDone.queue = []
    ∧ sSelDone.trace = sSelDone.submitted :=
  ⟨rfl, rfl,
    (queue_fifo_execution miniExec).2.2 [WAction.enqueue opSel, WAction.work]
      (initWS db0) rfl rfl⟩

/-- Helper for C10: a dict assignment never loses an existing key. -/
theorem keys_dictInsert_superset {κ β : Type} [BEq κ] [LawfulBEq κ]
    (d : List (κ × β)) (k : κ) (v : β) (x : κ)
    (hx : x ∈ d.map Prod.fst) : x ∈ (dictInsert d k v).map Prod.fst := by
  unfold dictInsert
  by_cases h : d.any (fun p => p.1 == k)
  · rw [if_pos h]
    obtain ⟨p, hp, hpx⟩ := List.mem_map.mp hx
    refine List.mem_map.mpr
      ⟨if p.1 == k then (k, v) else p, List.mem_map_of_mem _ hp, ?_⟩
    by_cases hpk : p.1 == k
    · rw [if_pos hpk]
      exact (eq_of_beq hpk).symm.trans hpx
    · rw [if_neg hpk]
      exact hpx
  · rw [if_neg h, List.map_append]
    exact List.mem_append_left _ hx

/-- Helper for C10: after a dict assignment the assigned key is present. -/
theorem self_mem_keys_dictInsert {κ β : Type} [BEq κ] [LawfulBEq κ]
    (d : List (κ × β)) (k : κ) (v : β) :
    k ∈ (dictInsert d k v).map Prod.fst := by
  unfold dictInsert
  by_cases h : d.any (fun p => p.1 == k)
  · rw [if_pos h]
    obtain ⟨p, hp, hpk⟩ := List.any_eq_true.mp h
    refine List.mem_map.mpr
      ⟨if p.1 == k then (k, v) else p, List.mem_map_of_mem _ hp, ?_⟩
    rw [if_pos hpk]
  · rw [if_neg h, List.map_append]
    exact List.mem_append_right _ (List.mem_singleton.mpr rfl)

/-- Helper for C10: a dict assignment never shrinks the dict. -/
theorem length_le_dictInsert {κ β : Type} [BEq κ]
    (d : List (κ × β)) (k : κ) (v : β) :
    d.length ≤ (dictInsert d k v).length := by
  unfold dictInsert
  by_cases h : d.any (fun p => p.1 == k)
  · rw [if_pos h, List.length_map]
  · rw [if_neg h, List.length_append]
    exact Nat.le_add_right _ _

/-- Helper for C10: one action never removes a key from `_rows`. -/
theorem wstep_rows_keys_mono {DB : Type}
    (exec : String → List Cell → DB → Except String (DB × List (List Cell)))
    (a : WAction) (s : WorkerState DB) (x : Nat)
    (hx : x ∈ s.rows.map Prod.fst) :
    x ∈ (wstep exec a s).rows.map Prod.fst := by
  cases a with
  | enqueue op => exact hx
  | work =>
      simp only [wstep]
      unfold execOne
      cases hq : s.queue with
      | nil => exact hx
      | cons op rest =>
          dsimp only
          cases hx2 : exec op.sql op.params s.db with
          | error e => exact hx
          | ok pr =>
              obtain ⟨db2, rs⟩ := pr
              dsimp only
              by_cases hsel : isSelect op.sql
              · rw [if_pos hsel]
                exact keys_dictInsert_superset s.rows op.event rs x hx
              · rw [if_neg hsel]
                exact hx

/-- Helper for C10: one action never shrinks `_rows`. -/
theorem wstep_rows_length_mono {DB : Type}
    (exec : String → List Cell → DB → Except String (DB × List (List Cell)))
    (a : WAction) (s : WorkerState DB) :
    s.rows.length ≤ (wstep exec a s).rows.length := by
  cases a with
  | enqueue op => exact Nat.le_refl _
  | work =>
      simp only [wstep]
      unfold execOne
      cases hq : s.queue with
      | nil => exact Nat.le_refl _
      | cons op rest =>
          dsimp only
          cases hx2 : exec op.sql op.params s.db with
          | error e => exact Nat.le_refl _
          | ok pr =>
              obtain ⟨db2, rs⟩ := pr
              dsimp only
              by_cases hsel : isSelect op.sql
              · rw [if_pos hsel]
                exact length_le_dictInsert s.rows op.event rs
              · rw [if_neg hsel]

/-- C10.  The global results map `_rows` only ever grows: no interleaving
of actions removes a key; no interleaving shrinks the map; and a worker
iteration that successfully executes a select stores an entry keyed by that
operation's completion signal.  Hence after `N` completed selects with
(always fresh, hence distinct) signals the map holds at least `N` entries
for the process lifetime. -/
theorem rows_map_only_grows {DB : Type}
    (exec : String → List Cell → DB → Except String (DB × List (List Cell))) :
    (∀ (acts : List WAction) (s : WorkerState DB) (x : Nat),
        x ∈ s.rows.map Prod.fst → x ∈ (wrun exec acts s).rows.map Prod.fst)
    ∧ (∀ (acts : List WAction) (s : WorkerState DB),
        s.rows.length ≤ (wrun exec acts s).rows.length)
    ∧ (∀ (s : WorkerState DB) (op : Op) (rest : List Op) (db2 : DB)
        (rs : List (List Cell)),
        s.queue = op :: rest → isSelect op.sql = true →
        exec op.sql op.params s.db = Except.ok (db2, rs) →
        op.event ∈ (execOne exec s).rows.map Prod.fst) := by
  refine ⟨?_, ?_, ?_⟩
  · intro acts
    induction acts with
    | nil => exact fun s x hx => hx
    | cons a rest ih =>
        exact fun s x hx =>
          ih (wstep exec a s) x (wstep_rows_keys_mono exec a s x hx)
  · intro acts
    induction acts with
    | nil => exact fun s => Nat.le_refl _
    | cons a rest ih =>
        exact fun s =>
          Nat.le_trans (wstep_rows_length_mono exec a s) (ih (wstep exec a s))
  · intro s op rest db2 rs hq hsel hx
    unfold execOne
    rw [hq]
    dsimp only
    rw [hx]
    dsimp only
    rw [if_pos hsel]
    exact self_mem_keys_dictInsert s.rows op.event rs

/-- Witness for C10: the executed select `opSel` stores its row set under
its event key 3; the key persists across a further worker iteration; the
map never shrinks. -/
theorem rows_map_only_grows_witness :
    sSel.queue = [opSel]
    ∧ isSelect opSel.sql = true
    ∧ miniExec opSel.sql opSel.params sSel.db = Except.ok (db0, [])
    ∧ opSel.event ∈ (execOne miniExec sSel).rows.map Prod.fst
    ∧ (3 ∈ sSelDone.rows.map Prod.fst →
        3 ∈ (wrun miniExec [WAction.work] sSelDone).rows.map Prod.fst)
    ∧ sSelDone.rows.length
        ≤ (wrun miniExec [WAction.work] sSelDone).rows.length :=
  ⟨rfl, rfl, rfl,
    (rows_map_only_grows miniExec).2.2 sSel opSel [] db0 [] rfl rfl rfl,
    fun h => (rows_map_only_grows miniExec).1 [WAction.work] sSelDone 3 h,
    (rows_map_only_grows miniExec).2.1 [WAction.work] sSelDone⟩

/-- Helper for C4: when the table's oids are distinct, excluding the oids
of the first `k` rows from the table itself leaves exactly the rows after
the first `k`. -/
theorem filter_not_mem_take :
    ∀ (l : List Row4) (k : Nat), (l.map Row4.oid).Nodup →
      l.filter (fun r => !decide (r.oid ∈ (l.take k).map Row4.oid)) = l.drop k := by
  intro l
  induction l with
  | nil => intro k _; simp
  | cons x xs ih =>
      intro k h
      rw [List.map_cons, List.nodup_cons] at h
      obtain ⟨hx, htail⟩ := h
      cases k with
      | zero => simp
      | succ k =>
          have htake : ((x :: xs).take (k + 1)).map Row4.oid
              = x.oid :: (xs.take k).map Row4.oid := by
            simp
          simp only [htake, List.drop_succ_cons, List.filter_cons,
            List.mem_cons]
          have hhead : (!decide (True ∨ x.oid ∈ (xs.take k).map Row4.oid))
              = false := by simp
          rw [hhead]
          simp only [Bool.false_eq_true, if_false]
          have hcong : xs.filter
                (fun r => !decide (r.oid = x.oid ∨ r.oid ∈ (xs.take k).map Row4.oid))
              = xs.filter
                (fun r => !decide (r.oid ∈ (xs.take k).map Row4.oid)) := by
            apply List.filter_congr
            intro r hr
            have hne : r.oid ≠ x.oid := by
              intro he
              exact hx (he ▸ List.mem_map_of_mem Row4.oid hr)
            simp [hne]
          rw [hcong]
          exact ih k htail

/-- Helper for C4: with no caller filters, page `p` is exactly the window
of `s` rows starting after the first `(p-1)*s` rows of the ordered table. -/
theorem select_page_drop_take (table : List Row4) (s p : Nat)
    (h : (table.map Row4.oid).Nodup) :
    select_page_rows table (fun _ => true) p s
      = (table.drop ((p - 1) * s)).take s := by
  unfold select_page_rows
  simp only [Bool.true_and]
  rw [filter_not_mem_take table ((p - 1) * s) h]

/-- C4 (amended).  With an ordering carrying a unique tiebreaker (distinct
oids in the fixed row order) and an *empty* filter set, `select_page`
pages are the successive windows of the ordered table, pages with distinct
page numbers are disjoint, and the ordered concatenation of all pages
equals the unpaged select with the same (empty) filters.  (The exclusion
subquery does not repeat the caller's filters, so with a nonempty filter
set pages can overlap — see the counterexample.) -/
theorem select_page_pagination_amended (table : List Row4) (s : Nat)
    (hnodup : (table.map Row4.oid).Nodup) :
    (∀ p, 1 ≤ p →
      select_page_rows table (fun _ => true) p s
        = (table.drop ((p - 1) * s)).take s)
    ∧ (∀ p q, 1 ≤ p → p < q →
      List.Disjoint (select_page_rows table (fun _ => true) p s)
        (select_page_rows table (fun _ => true) q s))
    ∧ (∀ K, table.length ≤ K * s →
      pagesConcat table (fun _ => true) s K
        = select_rows table (fun _ => true)) := by
  refine ⟨?_, ?_, ?_⟩
  · intro p _
    exact select_page_drop_take table s p hnodup
  · intro p q hp hpq
    rw [select_page_drop_take table s p hnodup,
      select_page_drop_take table s q hnodup]
    have hab : (p - 1) * s + s ≤ (q - 1) * s := by
      have h1 : (p - 1) * s + s = p * s := by
        calc (p - 1) * s + s = ((p - 1) + 1) * s := (Nat.succ_mul _ _).symm
          _ = p * s := by rw [Nat.sub_add_cancel hp]
      rw [h1]
      exact Nat.mul_le_mul_right s (Nat.le_pred_of_lt hpq)
    intro x hxA hxB
    have htable : table.Nodup := List.Nodup.of_map Row4.oid hnodup
    have hnodupd : (table.drop ((p - 1) * s)).Nodup :=
      (List.drop_sublist _ table).nodup htable
    have hdropb : table.drop ((q - 1) * s)
        = (table.drop ((p - 1) * s)).drop ((q - 1) * s - (p - 1) * s) := by
      rw [List.drop_drop]
      congr 1
      omega
    have hdisj := List.disjoint_take_drop hnodupd
      (show s ≤ (q - 1) * s - (p - 1) * s by omega)
    exact hdisj hxA (hdropb ▸ List.take_subset _ _ hxB)
  · have pages_take : ∀ K, pagesConcat table (fun _ => true) s K
        = table.take (K * s) := by
      intro K
      induction K with
      | zero => simp [pagesConcat]
      | succ K ih =>
          show pagesConcat table (fun _ => true) s K
              ++ select_page_rows table (fun _ => true) (K + 1) s
            = table.take ((K + 1) * s)
          rw [ih, select_page_drop_take table s (K + 1) hnodup,
            Nat.add_sub_cancel, ← List.take_add, ← Nat.succ_mul]
    intro K hK
    rw [pages_take K, List.take_of_length_le hK]
    simp [select_rows]

/-- Witness for C4: a three-row table with distinct oids, page size 2 —
page 2 is the final window, pages 1 and 2 are disjoint, and the two pages
concatenated reproduce the unpaged select. -/
theorem select_page_pagination_amended_witness :
    (table3.map Row4.oid).Nodup
    ∧ select_page_rows table3 (fun _ => true) 2 2
        = (table3.drop 2).take 2
    ∧ List.Disjoint (select_page_rows table3 (fun _ => true) 1 2)
        (select_page_rows table3 (fun _ => true) 2 2)
    ∧ pagesConcat table3 (fun _ => true) 2 2
        = select_rows table3 (fun _ => true) :=
  ⟨by decide,
    (select_page_pagination_amended table3 2 (by decide)).1 2 (by decide),
    (select_page_pagination_amended table3 2 (by decide)).2.1 1 2 (by decide)
      (by decide),
    (select_page_pagination_amended table3 2 (by decide)).2.2 2 (by decide)⟩

/-- Counterexample for C4 as stated: with the caller filter matching only
the second row (ordering by the unique oid, page size 1), pages 1 and 2
both return that same row, because the exclusion subquery ranges over the
whole table without the caller's filters; the claimed pairwise disjointness
for every filter set fails. -/
theorem select_page_overlap_counterexample :
    (tblCex.map Row4.oid).Nodup
    ∧ select_page_rows tblCex predCex 1 1 = [{ oid := 2, col := 7 }]
    ∧ select_page_rows tblCex predCex 2 1 = [{ oid := 2, col := 7 }]
    ∧ ¬ List.Disjoint (select_page_rows tblCex predCex 1 1)
        (select_page_rows tblCex predCex 2 1) :=
  ⟨by decide, by decide, by decide,
    fun hd =>
      hd (by decide :
            ({ oid := 2, col := 7 } : Row4) ∈ select_page_rows tblCex predCex 1 1)
        (by decide)⟩

/-- Helper for C5: the accumulating loop of `_get_where_str` splits into
the clause body and the value list. -/
theorem where_foldl (kwargs : List (String × String × DBVal)) :
    ∀ (a : String) (vs : List String),
      kwargs.foldl
        (fun acc e =>
          (acc.1 ++ e.1 ++ e.2.1 ++ "? and ", acc.2 ++ [pyValStr e.2.2]))
        (a, vs)
      = (a ++ whereBody kwargs, vs ++ whereVals kwargs) := by
  induction kwargs with
  | nil =>
      intro a vs
      simp [whereBody, whereVals]
  | cons e rest ih =>
      intro a vs
      simp only [List.foldl_cons]
      rw [ih]
      simp [whereBody, whereVals, String.append_assoc, List.append_assoc]

/-- Helper for C5: the value list accumulated by the loop is the mapping
iteration order image of `str` over the bound values. -/
theorem whereVals_eq_map (kwargs : List (String × String × DBVal)) :
    whereVals kwargs = kwargs.map (fun e => pyValStr e.2.2) := by
  induction kwargs with
  | nil => rfl
  | cons e rest ih => simp [whereVals, ih]

/-- Helper for C5: a nonempty clause body is the `and`-join of the
`column operator placeholder` fragments followed by one trailing `"and "`. -/
theorem whereBody_join (kwargs : List (String × String × DBVal))
    (h : kwargs ≠ []) :
    whereBody kwargs
      = joinAnd (kwargs.map (fun e => e.1 ++ e.2.1 ++ "?")) ++ " and " := by
  have hsplit : ("? and " : String) = "?" ++ " and " := rfl
  induction kwargs with
  | nil => exact absurd rfl h
  | cons e rest ih =>
      cases rest with
      | nil =>
          simp [whereBody, joinAnd, hsplit, String.append_assoc]
      | cons e2 rest2 =>
          rw [whereBody, ih (by simp)]
          simp [joinAnd, hsplit, String.append_assoc]

/-- Helper for C5: the `[:-4]` slice removes exactly the trailing `"and "`
of the clause body, leaving the trailing space of the last fragment. -/
theorem pyDropRight_and (x : String) :
    pyDropRight (x ++ " and ") 4 = x ++ " " := by
  unfold pyDropRight
  apply String.ext
  show ((x ++ " and ").data).take ((x ++ " and ").data.length - 4)
      = (x ++ " ").data
  rw [String.data_append, String.data_append]
  have h5 : (" and " : String).data.length = 5 := rfl
  rw [List.length_append, h5, List.take_append_eq_append_take]
  have h1 : x.data.length + 5 - 4 = x.data.length + 1 := by omega
  rw [h1, List.take_of_length_le (by omega), Nat.add_sub_cancel_left]
  rfl

/-- Helper for C5: a nonempty filter mapping yields a nonempty clause
body. -/
theorem whereBody_ne_empty (e : String × String × DBVal)
    (rest : List (String × String × DBVal)) :
    whereBody (e :: rest) ≠ "" := by
  intro hcontra
  have hlen : (whereBody (e :: rest)).data.length = 0 := by
    rw [hcontra]
    rfl
  rw [whereBody] at hlen
  have h6 : ("? and " : String).data.length = 6 := rfl
  simp only [String.data_append, List.length_append, h6] at hlen
  omega

/-- C5.  `_get_where_str` builds, for every filter mapping, the text
`column operator placeholder` per entry joined by `and` (no clause at all
for an empty mapping), and appends the `str`-image of each bound value to
the positional parameter list in mapping iteration order.  The clause text
is computed by `where_clause_spec` from the column names and operators
alone, so the bound values are never interpolated into the SQL text. -/
theorem get_where_str_correct :
    (∀ kwargs : List (String × String × DBVal),
      (get_where_str kwargs).1
        = where_clause_spec (kwargs.map (fun e => (e.1, e.2.1))))
    ∧ (∀ kwargs : List (String × String × DBVal),
      (get_where_str kwargs).2 = kwargs.map (fun e => pyValStr e.2.2))
    ∧ get_where_str [] = ( "", []) := by
  have hfold : ∀ kwargs : List (String × String × DBVal),
      get_where_str kwargs
        = if whereBody kwargs ≠ "" then
            ( " where " ++ pyDropRight (whereBody kwargs) 4, whereVals kwargs)
          else (whereBody kwargs, whereVals kwargs) := by
    intro kwargs
    unfold get_where_str
    rw [where_foldl kwargs "" []]
    rfl
  refine ⟨?_, ?_, rfl⟩
  · intro kwargs
    cases kwargs with
    | nil =>
        rw [hfold]
        simp [whereBody, where_clause_spec]
    | cons e rest =>
        rw [hfold, if_pos (whereBody_ne_empty e rest)]
        show " where " ++ pyDropRight (whereBody (e :: rest)) 4
          = where_clause_spec ((e :: rest).map (fun e => (e.1, e.2.1)))
        rw [whereBody_join (e :: rest) (by simp), pyDropRight_and]
        unfold where_clause_spec
        simp [String.append_assoc, Function.comp_def]
  · intro kwargs
    rw [hfold]
    by_cases hbody : whereBody kwargs ≠ ""
    · rw [if_pos hbody]
      exact whereVals_eq_map kwargs
    · rw [if_neg hbody]
      exact whereVals_eq_map kwargs

/-- Helper for C2: the optional-threshold encoding and the `!= None`
guarded decoding are mutually inverse. -/
theorem cellOptInt_optIntCell (o : Option Int) :
    cellOptInt (optIntCell o) = Except.ok o := by
  cases o <;> rfl

/-- Helper for C2: `eval` inverts `str` on a present, nonempty sequence. -/
theorem pyEval_optListCell (l : List Int) (h : l ≠ []) :
    pyEval (optListCell (some l)) = Except.ok l := by
  simp [optListCell, List.isEmpty_iff, h, pyEval]

/-- Helper for C2: a nullable timestamp that is unset, or set to a nonzero
epoch value, decodes back to itself. -/
theorem cellOptTime_optTimeCell (o : Option Int)
    (h : o = none ∨ ∃ t, o = some t ∧ t ≠ 0) :
    cellOptTime (optTimeCell o) = Except.ok o := by
  rcases h with h | ⟨t, ht, htz⟩
  · rw [h]
    rfl
  · rw [ht]
    simp [optTimeCell, cellOptTime, beq_iff_eq, htz]

/-- C2 (amended).  `_convert` inverts `_adapt` for every entity whose
text-serialized optional sequences are present and nonempty and whose
nullable timestamps are not the (falsy) epoch zero, relative to a store
that returns the entity's own related rows for the recursive sub-selects:
the referenced CoS for a Request, the owned children rebuilt into their
keyed mappings, and — for a Response — the fetched path rows wrapped in
one extra singleton list, exactly as the constructor call wraps them.
When an optional serialized column is null, `_convert` applies `eval` to
`None` and raises instead (see the counterexample). -/
theorem codec_roundtrip_amended (env : ConvertEnv) :
    (∀ c : CoS,
      convert env Kind.cos [adapt (Entity.cos c)] = Except.ok [Entity.cos c])
    ∧ (∀ (r : Request) (l : List Int),
      r.path = some l → l ≠ [] →
      (r.dres_at = none ∨ ∃ t, r.dres_at = some t ∧ t ≠ 0) →
      env.cosById r.cos.id = [r.cos] →
      pyDictBy (fun a => a.attempt_no) (env.attemptsByReq r.id r.src)
        = r.attempts →
      convert env Kind.request [adapt (Entity.request r)]
        = Except.ok [Entity.request r])
    ∧ (∀ (a : Attempt) (l : List Int),
      a.path = some l → l ≠ [] →
      (a.hres_at = none ∨ ∃ t, a.hres_at = some t ∧ t ≠ 0) →
      (a.rres_at = none ∨ ∃ t, a.rres_at = some t ∧ t ≠ 0) →
      (a.dres_at = none ∨ ∃ t, a.dres_at = some t ∧ t ≠ 0) →
      pyDictBy (fun resp => resp.host)
          (env.responsesByAtt a.req_id a.src a.attempt_no)
        = a.responses →
      convert env Kind.attempt [adapt (Entity.attempt a)]
        = Except.ok [Entity.attempt a])
    ∧ (∀ r : Response,
      r.paths = [env.pathsByResp r.req_id r.src r.attempt_no r.host] →
      convert env Kind.response [adapt (Entity.response r)]
        = Except.ok [Entity.response r])
    ∧ (∀ (p : Path) (l1 l2 l3 l4 l5 : List Int),
      p.path = some l1 → l1 ≠ [] →
      p.bandwidths = some l2 → l2 ≠ [] →
      p.delays = some l3 → l3 ≠ [] →
      p.jitters = some l4 → l4 ≠ [] →
      p.loss_rates = some l5 → l5 ≠ [] →
      convert env Kind.path [adapt (Entity.path p)]
        = Except.ok [Entity.path p]) := by
  refine ⟨?_, ?_, ?_, ?_, ?_⟩
  · intro c
    simp [convert, convert_item, adapt, convert_CoS_item, cellInt, cellStr,
      cellOptInt_optIntCell, bind, Except.bind, Except.map]
  · intro r l hpath hl hdres hcos hatt
    have ed := cellOptTime_optTimeCell r.dres_at hdres
    simp [convert, convert_item, adapt, convert_Request_item, cellInt,
      cellStr, cellTime, hpath, pyEval_optListCell l hl, ed, hcos, hatt,
      bind, Except.bind, Except.map]
    rw [← hpath]
  · intro a l hpath hl h7 h8 h9 hresp
    have e7 := cellOptTime_optTimeCell a.hres_at h7
    have e8 := cellOptTime_optTimeCell a.rres_at h8
    have e9 := cellOptTime_optTimeCell a.dres_at h9
    simp [convert, convert_item, adapt, convert_Attempt_item, cellInt,
      cellStr, cellTime, hpath, pyEval_optListCell l hl, e7, e8, e9, hresp,
      bind, Except.bind, Except.map]
    rw [← hpath]
  · intro r hpaths
    simp [convert, convert_item, adapt, convert_Response_item, cellInt,
      cellStr, cellTime, hpaths, bind, Except.bind, Except.map]
    rw [← hpaths]
  · intro p l1 l2 l3 l4 l5 h1 hn1 h2 hn2 h3 hn3 h4 hn4 h5 hn5
    simp [convert, convert_item, adapt, convert_Path_item, cellInt,
      cellStr, cellTime, h1, h2, h3, h4, h5,
      pyEval_optListCell l1 hn1, pyEval_optListCell l2 hn2,
      pyEval_optListCell l3 hn3, pyEval_optListCell l4 hn4,
      pyEval_optListCell l5 hn5, bind, Except.bind, Except.map]
    rw [← h1, ← h2, ← h3, ← h4, ← h5]

/-- Witness for C2 (amended): concrete entities of all five kinds, with
the optional sequences present, round-trip through `adapt` and `convert`
against the sub-select environment `env0`. -/
theorem codec_roundtrip_amended_witness :
    req0.path = some [1, 2]
    ∧ convert env0 Kind.cos [adapt (Entity.cos cos0)]
        = Except.ok [Entity.cos cos0]
    ∧ convert env0 Kind.request [adapt (Entity.request req0)]
        = Except.ok [Entity.request req0]
    ∧ convert env0 Kind.attempt [adapt (Entity.attempt att0)]
        = Except.ok [Entity.attempt att0]
    ∧ convert env0 Kind.response [adapt (Entity.response resp0)]
        = Except.ok [Entity.response resp0]
    ∧ convert env0 Kind.path [adapt (Entity.path path0)]
        = Except.ok [Entity.path path0] :=
  ⟨rfl,
    (codec_roundtrip_amended env0).1 cos0,
    (codec_roundtrip_amended env0).2.1 req0 [1, 2] rfl (by decide)
      (Or.inl rfl) rfl rfl,
    (codec_roundtrip_amended env0).2.2.1 att0 [2, 3] rfl (by decide)
      (Or.inl rfl) (Or.inr ⟨105, rfl, by decide⟩) (Or.inl rfl) rfl,
    (codec_roundtrip_amended env0).2.2.2.1 resp0 rfl,
    (codec_roundtrip_amended env0).2.2.2.2 path0 [1, 2] [10] [1] [2] [3]
      rfl (by decide) rfl (by decide) rfl (by decide) rfl (by decide)
      rfl (by decide)⟩

/-- Counterexample for C2 as stated: the valid Request `reqNoPath` (its
optional path unset) does not round-trip — `_adapt` stores null in the
path column and `_convert` then raises from `eval(None)`, so decoding the
encoded row yields an error, not the entity. -/
theorem codec_roundtrip_counterexample :
    convert env0 Kind.request [adapt (Entity.request reqNoPath)]
      = Except.error "TypeError: eval arg 1 must be a string"
    ∧ convert env0 Kind.request [adapt (Entity.request reqNoPath)]
      ≠ Except.ok [Entity.request reqNoPath] :=
  ⟨rfl, fun h =>
    nomatch (rfl :
        convert env0 Kind.request [adapt (Entity.request reqNoPath)]
          = Except.error "TypeError: eval arg 1 must be a string").symm.trans h⟩

end DBLib
